import Mathlib

/-!
Verification development for the resumable file copier (src/copier.py).

Files are modelled as lists of byte values (`List Nat`), timestamps as
rationals (`ℚ`), and the on-disk ledger as an association list from
destination-path strings to timestamps.  Every definition below is a
direct translation of the Python source; line numbers refer to
src/copier.py.
-/

/-- Python `f.seek(offset); f.read(len)` on a file with content `f`:
reading past end of file yields the available (possibly empty) suffix. -/
def readBlock (f : List Nat) (offset len : Nat) : List Nat :=
  (f.drop offset).take len

/-- Lines 155-161, `is_block_different`: seek both files to `offset`,
read `bs` bytes from each, and report whether the blocks differ. -/
def is_block_different (bs : Nat) (src dst : List Nat) (offset : Nat) : Bool :=
  decide (readBlock src offset bs ≠ readBlock dst offset bs)

/-- Lines 163-166, `is_file_equal`: compares the trailing block and the
leading block, but, exactly as the source does, returns
`_mismatch_start or _mismatch_start` — the leading-block comparison
`_mismatch_end` is computed and then ignored, and the returned value is
true when the trailing blocks DIFFER. -/
def is_file_equal (bs : Nat) (src dst : List Nat) (file_size : Nat) : Bool :=
  let _mismatch_start := is_block_different bs src dst (file_size - bs)
  let _mismatch_end := is_block_different bs src dst 0
  _mismatch_start || _mismatch_start

/-- Fuel-indexed form of the binary-search loop of lines 174-179.  Each
iteration of the Python loop strictly shrinks `e - start` (the probe
`mid = (start+e)//2` satisfies `start < mid < e` whenever the guard
`start + 1 < e` holds), so running it with fuel `e - start` performs the
loop to completion; `searchLoop_eq` below proves that the fueled
function satisfies exactly the defining equation of the while loop. -/
def searchLoopF (bs : Nat) (src dst : List Nat) : Nat → Nat → Nat → Nat
  | 0, start, _ => start
  | fuel + 1, start, e =>
    if start + 1 < e then
      if is_block_different bs src dst ((start + e) / 2) then
        searchLoopF bs src dst fuel start ((start + e) / 2)
      else
        searchLoopF bs src dst fuel ((start + e) / 2) e
    else start

/-- Lines 174-179: the binary-search loop
`while start + 1 < end: mid := (start+end)//2; if different then end := mid else start := mid`. -/
def searchLoop (bs : Nat) (src dst : List Nat) (start e : Nat) : Nat :=
  searchLoopF bs src dst (e - start) start e

lemma searchLoopF_fuel (bs : Nat) (src dst : List Nat) :
    ∀ (f1 f2 start e : Nat), e ≤ start + f1 → e ≤ start + f2 →
      searchLoopF bs src dst f1 start e = searchLoopF bs src dst f2 start e := by
  intro f1
  induction f1 with
  | zero =>
    intro f2 start e h1 h2
    cases f2 with
    | zero => rfl
    | succ f2 =>
      have hlt : ¬ start + 1 < e := by omega
      simp [searchLoopF, hlt]
  | succ f1 ih =>
    intro f2 start e h1 h2
    cases f2 with
    | zero =>
      have hlt : ¬ start + 1 < e := by omega
      simp [searchLoopF, hlt]
    | succ f2 =>
      by_cases hlt : start + 1 < e
      · have hmid1 : start + 1 ≤ (start + e) / 2 := by omega
        have hmid2 : (start + e) / 2 + 1 ≤ e := by omega
        simp only [searchLoopF, if_pos hlt]
        by_cases hd : is_block_different bs src dst ((start + e) / 2)
        · rw [if_pos hd, if_pos hd]
          exact ih f2 start ((start + e) / 2) (by omega) (by omega)
        · rw [if_neg hd, if_neg hd]
          exact ih f2 ((start + e) / 2) e (by omega) (by omega)
      · simp [searchLoopF, hlt]

/-- The fueled loop satisfies the while-loop's defining equation, so
`searchLoop` is a faithful rendering of lines 174-179. -/
lemma searchLoop_eq (bs : Nat) (src dst : List Nat) (start e : Nat) :
    searchLoop bs src dst start e =
      if start + 1 < e then
        (if is_block_different bs src dst ((start + e) / 2) then
          searchLoop bs src dst start ((start + e) / 2)
        else
          searchLoop bs src dst ((start + e) / 2) e)
      else start := by
  unfold searchLoop
  by_cases hlt : start + 1 < e
  · have hfuel : e - start = (e - start - 1) + 1 := by omega
    rw [if_pos hlt, hfuel]
    simp only [searchLoopF, if_pos hlt]
    have hmid1 : start + 1 ≤ (start + e) / 2 := by omega
    have hmid2 : (start + e) / 2 + 1 ≤ e := by omega
    by_cases hd : is_block_different bs src dst ((start + e) / 2)
    · rw [if_pos hd, if_pos hd]
      exact searchLoopF_fuel bs src dst (e - start - 1) ((start + e) / 2 - start)
        start ((start + e) / 2) (by omega) (by omega)
    · rw [if_neg hd, if_neg hd]
      exact searchLoopF_fuel bs src dst (e - start - 1) (e - (start + e) / 2)
        ((start + e) / 2) e (by omega) (by omega)
  · rw [if_neg hlt]
    cases he : e - start with
    | zero => rfl
    | succ f => simp [searchLoopF, hlt]

/-- Lines 143-183, `Copier._find_resume_position`:
`_block_size = min(total_size, self.__block_size)`; if
`not is_file_equal(...)` run the binary search from `start = 0`,
`end = total_size` and return `start`; otherwise return `-1`. -/
def find_resume_position (blockSizeCfg : Nat) (src dst : List Nat)
    (total_size : Nat) : Int :=
  let bs := min total_size blockSizeCfg
  if !(is_file_equal bs src dst total_size) then
    Int.ofNat (searchLoop bs src dst 0 total_size)
  else
    -1

/-! ## DirectoryCache (lines 29-90) -/

/-- Python `dict.get(key, default)` on an association list (Python dicts
keep one entry per key; the lists we build preserve that). -/
def dictGet (m : List (String × ℚ)) (k : String) (dfl : ℚ) : ℚ :=
  match m.find? (fun kv => kv.1 == k) with
  | some kv => kv.2
  | none => dfl

/-- Python `d[key] = value`: overwrite in place when the key is present,
otherwise append (insertion order is preserved, as for Python dicts). -/
def dictInsert (k : String) (v : ℚ) (m : List (String × ℚ)) : List (String × ℚ) :=
  if m.any (fun kv => kv.1 == k) then
    m.map (fun kv => if kv.1 == k then (k, v) else kv)
  else m ++ [(k, v)]

/-- `timedelta(weeks=4).total_seconds()` — the retention window used by
`DirectoryCache.serialize_to_file` (line 38, `_max_age_in_weeks = 4`). -/
def retention_seconds : ℚ := 4 * 7 * 24 * 3600

/-- Lines 36-45, `DirectoryCache.serialize_to_file`: writes the map,
keeping exactly the entries with `value > _cutoff.timestamp()` where
`_cutoff = now - timedelta(weeks=4)`.  `now` is the current UNIX
timestamp. -/
def serialize_to_file (now : ℚ) (cache : List (String × ℚ)) : List (String × ℚ) :=
  cache.filter (fun kv => decide (now - retention_seconds < kv.2))

/-- Lines 47-56, `DirectoryCache.deserialize_from_file`: returns the
stored map when the file exists and parses, otherwise `{}` (the argument
is `none` for a missing or corrupt file). -/
def deserialize_from_file (stored : Option (List (String × ℚ))) : List (String × ℚ) :=
  match stored with
  | none => []
  | some m => m

/-- Lines 17-19, `CopyMode`. -/
inductive CopyMode
  | NEW_FILES_ONLY
  | ALL_FILES
deriving DecidableEq

/-- Lines 22-26, `FileStatus`. -/
inductive FileStatus
  | NEW
  | CACHED
  | PARTLY
  | DONE
deriving DecidableEq

/-- Lines 58-81, `DirectoryCache.is_done`.
`_ts_cache = self._cache.get(destination_file, 0.0)`; under
`NEW_FILES_ONLY` the result is `CACHED` when `_ts_cache` equals the
source mtime and `NEW` otherwise (destination existence is never
consulted in that mode); under `ALL_FILES` an existing destination is
`DONE`/`PARTLY` depending on whether `_ts_cache` equals the destination
mtime, and a missing one is `NEW`.  The trailing lines 77-81 of the
Python function are unreachable for the two enum values. -/
def is_done (cache : List (String × ℚ)) (srcMtime : ℚ) (dstExists2 : Bool)
    (dstMtime : ℚ) (dstPath : String) (mode : CopyMode) : FileStatus :=
  let ts := dictGet cache dstPath 0
  match mode with
  | CopyMode.NEW_FILES_ONLY =>
    if ts = srcMtime then FileStatus.CACHED else FileStatus.NEW
  | CopyMode.ALL_FILES =>
    if dstExists2 then
      (if ts = dstMtime then FileStatus.DONE else FileStatus.PARTLY)
    else FileStatus.NEW

/-! ## RollingMedian (lines 93-109) -/

/-- Insert into a sorted list, keeping it sorted (ascending). -/
def insertSorted (x : ℚ) : List ℚ → List ℚ
  | [] => [x]
  | y :: ys => if x ≤ y then x :: y :: ys else y :: insertSorted x ys

/-- Insertion sort, ascending — the sort underlying `np.median`. -/
def sortQ : List ℚ → List ℚ
  | [] => []
  | x :: xs => insertSorted x (sortQ xs)

/-- `np.median` on a nonempty list: the middle element of the sorted
list for odd length, the mean of the two middle elements for even
length (0 on the empty list, a case the source never reaches). -/
def npMedian (l : List ℚ) : ℚ :=
  let s := sortQ l
  let n := s.length
  if n = 0 then 0
  else if n % 2 = 1 then s.getD (n / 2) 0
  else (s.getD (n / 2 - 1) 0 + s.getD (n / 2) 0) / 2

/-- Line 94: the default `window_size=10` of `RollingMedian.__init__`. -/
def defaultWindowSize : Nat := 10

/-- Lines 98-103, `RollingMedian.add`: append the value, then pop the
oldest element (the head) once if the window now exceeds the size. -/
def rollingAdd (windowSize : Nat) (window : List ℚ) (value : ℚ) : List ℚ :=
  let w := window ++ [value]
  if windowSize < w.length then w.drop 1 else w

/-- Lines 105-109, `RollingMedian.median`: `0` for an empty window,
`np.median(window)` otherwise. -/
def rollingMedian (window : List ℚ) : ℚ :=
  if window = [] then 0 else npMedian window

/-- Lines 295-304 inside `Copier.copy_file`: each progress emission
during one call computes one instantaneous throughput sample and feeds
it to `self.__transfer_rate_median.add`.  The median object lives on the
`Copier` instance (created once at line 117), so one call's samples are
folded onto whatever window the previous calls left behind. -/
def addSamples (windowSize : Nat) (window : List ℚ) (samples : List ℚ) : List ℚ :=
  samples.foldl (rollingAdd windowSize) window

/-- Line 117: the window of the single `RollingMedian()` created in
`Copier.__init__` — empty at construction, never re-created afterwards. -/
def copierInitWindow : List ℚ := []

/-! ## Directory passes (lines 185-227) -/

/-- Actions the per-file dispatch of lines 210-223 can take. -/
inductive FileAction
  | skipCached
  | invokeCopy
  | skipDone
deriving DecidableEq

/-- Lines 210-223 of `Copier.__copy_directory_internal`: `CACHED` and
`DONE` files are only reported and skipped; `NEW` and `PARTLY` files are
handed to `copy_file`. -/
def pass_file_action : FileStatus → FileAction
  | FileStatus.CACHED => FileAction.skipCached
  | FileStatus.NEW => FileAction.invokeCopy
  | FileStatus.PARTLY => FileAction.invokeCopy
  | FileStatus.DONE => FileAction.skipDone

/-- Whether per-file processing succeeded (`Except.ok`) or raised. -/
def exceptOk : Except String Unit → Bool
  | Except.ok _ => true
  | Except.error _ => false

/-- Lines 189-227, `Copier.__copy_directory_internal`, abstracted over
the per-file body (`is_done` dispatch plus `copy_file`), here `process`:
the `try` block wraps the ENTIRE `os.walk` loop, so an exception raised
while processing one file propagates out of both `for` loops to the
single `except` handler (lines 225-227), which logs it, and the pass
function returns.  The result lists the files whose processing was
started, in order: the first raising file ends the pass. -/
def copy_directory_internal_processed (process : String → Except String Unit) :
    List String → List String
  | [] => []
  | f :: rest =>
    match process f with
    | Except.ok _ => f :: copy_directory_internal_processed process rest
    | Except.error _ => [f]

/-! ## Copier.copy_file (lines 229-324) -/

/-- Line 286: the 5 MB streaming chunk size. -/
def CHUNK : Nat := 5 * 1024 * 1024

/-- Writing `data` at byte position `pos` of a file with content `f`:
bytes before `pos` are kept, a seek past end-of-file fills the gap with
zero bytes, and content beyond the written range is kept (mode `r+b`
does not truncate). -/
def writeAt (f : List Nat) (pos : Nat) (data : List Nat) : List Nat :=
  f.take pos ++ List.replicate (pos - f.length) 0 ++ data ++ f.drop (pos + data.length)

/-- The inputs of one `Copier.copy_file` invocation: the configuration
(`blockSize` from `Copier.__init__`, the dry-run flag, the current time
used when the ledger is persisted), the source file (content and
mtime), the destination path and its pre-call storage state (existence,
content, mtime), the in-memory ledger, and the abort schedule.
`abortAfter = some k` means the process-wide `__abort` flag first reads
true at the k-th check the streaming phase performs (checks are the
loop-head test of line 285, counted from 0, followed by the final test
of line 322); `none` means the flag is never set. -/
structure CopyArgs where
  blockSize : Nat
  dryRun : Bool
  now : ℚ
  srcContent : List Nat
  srcMtime : ℚ
  dstPath : String
  dstExists2 : Bool
  dstContent : List Nat
  dstMtime : ℚ
  cache : List (String × ℚ)
  abortAfter : Option Nat

/-- The observable outcome of one `Copier.copy_file` invocation:
destination storage state afterwards, the in-memory ledger, what (if
anything) was persisted to the ledger file, how many times
`DirectoryCache.set_done` ran, whether the ensure-directory step
(lines 262-264) executed, how many bytes the streaming loop wrote, and
the value of the abort flag at the final check (line 322). -/
structure CopyResult where
  dstExists2 : Bool
  dstContent : List Nat
  dstMtime : ℚ
  cache : List (String × ℚ)
  persisted : Option (List (String × ℚ))
  setDoneCount : Nat
  dirEnsured : Bool
  bytesTransferred : Nat
  aborted : Bool

/-- Lines 235-245: `total_size = os.path.getsize(src)`; when the
destination exists the resume position comes from
`_find_resume_position`, otherwise it is 0. -/
def resume_position (blockSizeCfg : Nat) (src : List Nat) (dstExists2 : Bool)
    (dstContent : List Nat) : Int :=
  if dstExists2 then
    find_resume_position blockSizeCfg src dstContent src.length
  else 0

/-- Number of 5 MB chunks the loop needs to move `remaining` bytes. -/
def numChunksOf (remaining : Nat) : Nat := (remaining + CHUNK - 1) / CHUNK

/-- Bytes written by the loop of lines 285-293 under abort schedule
`abortAfter`: the head check of iteration `i` is check number `i`, so an
abort first seen at check `k` leaves `min remaining (k * CHUNK)` bytes
written. -/
def copiedBytesOf (remaining : Nat) : Option Nat → Nat
  | none => remaining
  | some k => min remaining (k * CHUNK)

/-- Value of the abort flag at the final check of line 322.  A full run
performs head checks `0 .. numChunksOf remaining` (the last iteration
reads an empty chunk and breaks), so the final check is check number
`numChunksOf remaining + 1`; the flag is monotone once set. -/
def abortObserved (remaining : Nat) : Option Nat → Bool
  | none => false
  | some k => decide (k ≤ numChunksOf remaining + 1)

/-- Lines 261-324 of `Copier.copy_file`, the non-dry-run transfer for a
resume position `rp ≥ 0`: ensure the destination directory, open the
destination with mode `"r+b"` when `rp > 0` (keeping existing content)
or `"wb"` otherwise (truncating), seek to `rp`, stream 5 MB chunks
while the abort flag is unset, and finally (line 322) call
`DirectoryCache.set_done` — which stamps the source mtime onto the
destination (`os.utime`), records it in the ledger and persists the
ledger (lines 86-90) — unless the flag is set. -/
def streamResult (a : CopyArgs) (rp : Nat) : CopyResult :=
  let remaining := a.srcContent.length - rp
  let copied := copiedBytesOf remaining a.abortAfter
  let newContent :=
    writeAt (if 0 < rp then a.dstContent else []) rp ((a.srcContent.drop rp).take copied)
  if abortObserved remaining a.abortAfter then
    ⟨true, newContent, a.dstMtime, a.cache, none, 0, true, copied, true⟩
  else
    let cache1 := dictInsert a.dstPath a.srcMtime a.cache
    ⟨true, newContent, a.srcMtime, cache1, some (serialize_to_file a.now cache1),
      1, true, copied, false⟩

/-- Lines 229-324, `Copier.copy_file`: compute the resume position
(lines 235-245); when it is negative run `set_done` and return
(lines 247-250); when running dry return with no storage effect
(lines 258-259); otherwise perform the streaming transfer.  The abort
flag is never checked on the first two paths. -/
def copy_file (a : CopyArgs) : CopyResult :=
  let resume := resume_position a.blockSize a.srcContent a.dstExists2 a.dstContent
  if resume < 0 then
    let cache1 := dictInsert a.dstPath a.srcMtime a.cache
    ⟨a.dstExists2, a.dstContent, a.srcMtime, cache1,
      some (serialize_to_file a.now cache1), 1, false, 0, false⟩
  else if a.dryRun then
    ⟨a.dstExists2, a.dstContent, a.dstMtime, a.cache, none, 0, false, 0, false⟩
  else
    streamResult a resume.toNat

/-! ## Concrete fixtures from the repository test suite
(src/copier_test.py, `test_find_resume_position`): 10-byte files with a
matching head of `g` one-bytes and a tail of zero bytes on the
destination side. -/

/-- The 10-byte source of the test table: all bytes `0x01`. -/
def tenOnes : List Nat := List.replicate 10 1

/-- The 10-byte destination of the test table with `g` good bytes. -/
def goodBad (g : Nat) : List Nat := List.replicate g 1 ++ List.replicate (10 - g) 0

/-! ## Claims -/

/-- C1: the claim says that for a destination equal to a strict prefix
of the source, `copy_file` leaves the destination byte-identical to the
full source.  Evaluating the code at the failing input — source bytes
`[1,1]`, destination truncated to `[1]`, default block size 2048 — shows
the opposite: the trailing 2-byte blocks differ, so the inverted test of
line 173 takes the `start = -1` branch, `copy_file` runs `set_done` and
returns, and the destination keeps its truncated content. -/
theorem C1_truncated_destination_left_corrupt :
    (copy_file ⟨2048, false, 0, [1,1], 7, "p", true, [1], 0, [], none⟩).dstContent = [1]
    ∧ (copy_file ⟨2048, false, 0, [1,1], 7, "p", true, [1], 0, [], none⟩).setDoneCount = 1
    ∧ ([1] : List Nat) ≠ [1,1] := by
  refine ⟨by decide, by decide, by decide⟩

/-- C2: the claim says `_find_resume_position` returns `-1` exactly when
the trailing blocks match, hence for all identical file pairs.
Evaluating the code: for identical 4-byte files with block size 2 the
trailing blocks match, yet the function runs the binary search and
returns 3; and for files differing only in the trailing block it
returns `-1`.  Line 166 returns `_mismatch_start or _mismatch_start`
(true when the trailing blocks DIFFER) and line 173 branches on
`not is_file_equal(...)`, inverting the documented behaviour. -/
theorem C2_identical_files_not_reported_equal :
    find_resume_position 2 [5,6,7,8] [5,6,7,8] 4 = 3
    ∧ find_resume_position 2 [5,6,7,8] [5,6,7,0] 4 = -1 := by
  refine ⟨by decide, by decide⟩

/-- C3: the claim reproduces the table of
`copier_test.py::test_find_resume_position` (total length 10, block
size 2): good-byte counts 0,3,5,9,10 should give 0,1,3,7,-1.
Evaluating the code gives -1,-1,-1,-1,9 instead: every pair whose
trailing blocks differ is declared equal (`-1`), and the fully equal
pair is binary-searched down to offset 9. -/
theorem C3_resume_table_mismatch :
    find_resume_position 2 tenOnes (goodBad 0) 10 = -1
    ∧ find_resume_position 2 tenOnes (goodBad 3) 10 = -1
    ∧ find_resume_position 2 tenOnes (goodBad 5) 10 = -1
    ∧ find_resume_position 2 tenOnes (goodBad 9) 10 = -1
    ∧ find_resume_position 2 tenOnes (goodBad 10) 10 = 9 := by
  refine ⟨by decide, by decide, by decide, by decide, by decide⟩

/-- C4 counterexample: with an empty ledger, a source mtime of 5 and an
EXISTING destination, pass 1 (`NEW_FILES_ONLY`) classifies the file
`NEW` and the dispatch of lines 210-223 invokes `copy_file` — the claim
says an existing-but-uncached file is `New` only if the destination
does not exist, and is otherwise skipped in pass 1. -/
theorem C4_counterexample_existing_uncached_copied_in_pass1 :
    is_done [] 5 true 7 "d" CopyMode.NEW_FILES_ONLY = FileStatus.NEW
    ∧ pass_file_action (is_done [] 5 true 7 "d" CopyMode.NEW_FILES_ONLY)
        = FileAction.invokeCopy := by
  refine ⟨by decide, by decide⟩

/-- C4 (amended): in pass 1 (`NEW_FILES_ONLY`) the classification is
`CACHED` exactly when the ledger holds a record for the destination
path equal to the source mtime (with default 0 for a missing record),
and `NEW` otherwise — regardless of whether the destination exists; a
`NEW` file is handed to `copy_file`, so existing-but-uncached files are
processed in pass 1, not deferred. -/
theorem C4_amended_pass1_classification (cache : List (String × ℚ))
    (srcM dstM : ℚ) (dstE : Bool) (p : String) :
    (is_done cache srcM dstE dstM p CopyMode.NEW_FILES_ONLY = FileStatus.CACHED
      ↔ dictGet cache p 0 = srcM)
    ∧ (is_done cache srcM dstE dstM p CopyMode.NEW_FILES_ONLY = FileStatus.NEW
      ↔ dictGet cache p 0 ≠ srcM)
    ∧ pass_file_action FileStatus.NEW = FileAction.invokeCopy := by
  unfold is_done
  by_cases h : dictGet cache p 0 = srcM <;> simp [h, pass_file_action]

/-- C5 counterexample: with two files where processing the first raises
(permission denied), the pass processes only the first file — the
second file is never reached, contradicting the claim that traversal
continues with the next file in the same pass. -/
theorem C5_counterexample_error_ends_pass :
    copy_directory_internal_processed
        (fun f => if f = "a" then Except.error "PermissionError" else Except.ok ())
        ["a", "b"]
      = ["a"]
    ∧ "b" ∉ copy_directory_internal_processed
        (fun f => if f = "a" then Except.error "PermissionError" else Except.ok ())
        ["a", "b"] := by
  refine ⟨by decide, by decide⟩

/-- C5 (amended): an error raised while processing one file is caught
and logged by the handler of lines 225-227, but that handler wraps the
whole traversal, so the error ends the current pass: every file before
the failing one is processed, the failing one is attempted, and no file
after it is processed in that pass. -/
theorem C5_amended_first_error_aborts_pass (process : String → Except String Unit)
    (pre post : List String) (f : String)
    (hpre : ∀ g ∈ pre, exceptOk (process g) = true)
    (hf : exceptOk (process f) = false) :
    copy_directory_internal_processed process (pre ++ f :: post) = pre ++ [f] := by
  induction pre with
  | nil =>
    cases hp : process f with
    | ok u => rw [hp] at hf; simp [exceptOk] at hf
    | error e => simp [copy_directory_internal_processed, hp]
  | cons g gs ih =>
    have hg : exceptOk (process g) = true := hpre g (by simp)
    cases hp : process g with
    | error e => rw [hp] at hg; simp [exceptOk] at hg
    | ok u =>
      simp only [List.cons_append, copy_directory_internal_processed, hp]
      exact congrArg (List.cons g) (ih (fun x hx => hpre x (by simp [hx])))

/-- C5 witness for the amended theorem: a concrete pass with one good
file, then a failing file, then a file that is never reached. -/
theorem C5_amended_witness :
    copy_directory_internal_processed
        (fun f => if f = "x" then Except.ok () else Except.error "PermissionError")
        (["x"] ++ "a" :: ["b"])
      = ["x"] ++ ["a"] :=
  C5_amended_first_error_aborts_pass
    (fun f => if f = "x" then Except.ok () else Except.error "PermissionError")
    ["x"] ["b"] "a" (by decide) (by decide)

/-- C6 counterexample: a dry-run `copy_file` invocation on a fresh file
runs to completion with the abort flag never set, yet calls `set_done`
zero times (it returns at the dry-run check of lines 258-259), so the
claim does not hold of EVERY `copy_file` invocation. -/
theorem C6_counterexample_dry_run_completion_without_markdone :
    (copy_file ⟨2048, true, 0, [1,2,3], 5, "p", false, [], 0, [], none⟩).aborted = false
    ∧ (copy_file ⟨2048, true, 0, [1,2,3], 5, "p", false, [], 0, [], none⟩).setDoneCount ≠ 1 := by
  refine ⟨by decide, by decide⟩

/-- C6 (amended): for every NON-dry-run `copy_file` invocation, if the
abort flag is observed (at a loop-head check of line 285 or the final
check of line 322) the call never runs `set_done`, persists nothing,
and leaves the destination file on storage; if the flag is never
observed, `set_done` runs exactly once (either on the
resume-position-negative path of lines 247-250 or at line 323). -/
theorem C6_amended_abort_markdone_protocol (a : CopyArgs) (h : a.dryRun = false) :
    ((copy_file a).aborted = true →
      (copy_file a).setDoneCount = 0
      ∧ (copy_file a).persisted = none
      ∧ (copy_file a).dstExists2 = true)
    ∧ ((copy_file a).aborted = false → (copy_file a).setDoneCount = 1) := by
  by_cases hres : resume_position a.blockSize a.srcContent a.dstExists2 a.dstContent < 0
  · simp [copy_file, hres]
  · by_cases hab : abortObserved
        (a.srcContent.length
          - (resume_position a.blockSize a.srcContent a.dstExists2 a.dstContent).toNat)
        a.abortAfter
    · simp [copy_file, streamResult, hres, hab, h]
    · simp [copy_file, streamResult, hres, hab, h]

/-- C6 witness for the amended theorem: a non-dry-run call whose abort
flag is already set at the first loop-head check. -/
theorem C6_amended_witness :
    ((copy_file ⟨2048, false, 0, [1,2,3], 5, "p", false, [], 0, [], some 0⟩).aborted = true →
      (copy_file ⟨2048, false, 0, [1,2,3], 5, "p", false, [], 0, [], some 0⟩).setDoneCount = 0
      ∧ (copy_file ⟨2048, false, 0, [1,2,3], 5, "p", false, [], 0, [], some 0⟩).persisted = none
      ∧ (copy_file ⟨2048, false, 0, [1,2,3], 5, "p", false, [], 0, [], some 0⟩).dstExists2 = true)
    ∧ ((copy_file ⟨2048, false, 0, [1,2,3], 5, "p", false, [], 0, [], some 0⟩).aborted = false →
      (copy_file ⟨2048, false, 0, [1,2,3], 5, "p", false, [], 0, [], some 0⟩).setDoneCount = 1) :=
  C6_amended_abort_markdone_protocol ⟨2048, false, 0, [1,2,3], 5, "p", false, [], 0, [], some 0⟩ rfl

/-- C7 counterexample: an entry whose timestamp equals the cutoff
exactly (timestamp 0, now 2419200 = four weeks in seconds) is NOT older
than `now` minus the retention window, so the claim keeps it; the code
filter (`value > cutoff`, line 42) prunes it, and the round trip drops
the entry. -/
theorem C7_counterexample_cutoff_entry_pruned :
    deserialize_from_file (some (serialize_to_file 2419200 [("a", 0)])) ≠ [("a", (0:ℚ))]
    ∧ ¬ ((0:ℚ) < 2419200 - 2419200) := by
  constructor
  · norm_num [deserialize_from_file, serialize_to_file, retention_seconds]
  · norm_num

/-- C7 (amended): persisting an in-memory ledger and reloading it
yields exactly the entries whose timestamp is STRICTLY newer than `now`
minus the retention window of 4 weeks (2419200 seconds); entries at or
below the cutoff are pruned. -/
theorem C7_amended_roundtrip_membership (now : ℚ) (cache : List (String × ℚ))
    (kv : String × ℚ) :
    kv ∈ deserialize_from_file (some (serialize_to_file now cache))
      ↔ kv ∈ cache ∧ now - 2419200 < kv.2 := by
  simp only [deserialize_from_file, serialize_to_file, List.mem_filter,
    decide_eq_true_eq]
  norm_num [retention_seconds]

/-- C8: `RollingMedian` with window size 3 fed 10, 20, 30, 40 reports
medians 10, 15, 20, 30; the empty-window median is 0; and with the
default window size 10, adding to a full window keeps at most the last
10 samples, the evicted element being the oldest (the result is a
suffix of the sample history). -/
theorem C8_rolling_median (w : List ℚ) (v : ℚ) (h : w.length ≤ defaultWindowSize) :
    rollingMedian [] = 0
    ∧ rollingMedian (rollingAdd 3 [] 10) = 10
    ∧ rollingMedian (rollingAdd 3 (rollingAdd 3 [] 10) 20) = 15
    ∧ rollingMedian (rollingAdd 3 (rollingAdd 3 (rollingAdd 3 [] 10) 20) 30) = 20
    ∧ rollingMedian (rollingAdd 3 (rollingAdd 3 (rollingAdd 3 (rollingAdd 3 [] 10) 20) 30) 40) = 30
    ∧ (rollingAdd defaultWindowSize w v).length ≤ defaultWindowSize
    ∧ ∃ evicted, evicted ++ rollingAdd defaultWindowSize w v = w ++ [v] := by
  refine ⟨by norm_num [rollingMedian], ?_, ?_, ?_, ?_, ?_, ?_⟩
  · norm_num [rollingMedian, rollingAdd, npMedian, sortQ, insertSorted]
  · norm_num [rollingMedian, rollingAdd, npMedian, sortQ, insertSorted]
    all_goals decide
  · norm_num [rollingMedian, rollingAdd, npMedian, sortQ, insertSorted]
    all_goals decide
  · norm_num [rollingMedian, rollingAdd, npMedian, sortQ, insertSorted]
    all_goals decide
  · simp only [rollingAdd, defaultWindowSize] at *
    split
    · rename_i hlen
      simp only [List.length_drop, List.length_append, List.length_cons,
        List.length_nil] at hlen ⊢
      omega
    · rename_i hlen
      simp only [List.length_append, List.length_cons, List.length_nil] at hlen ⊢
      omega
  · by_cases hlen : defaultWindowSize < (w ++ [v]).length
    · refine ⟨(w ++ [v]).take 1, ?_⟩
      simp only [rollingAdd, if_pos hlen]
      exact List.take_append_drop 1 (w ++ [v])
    · refine ⟨[], ?_⟩
      simp only [rollingAdd, if_neg hlen]
      simp

/-- C8 witness: the theorem applied at the empty window and sample 0. -/
theorem C8_rolling_median_witness :
    rollingMedian [] = 0
    ∧ rollingMedian (rollingAdd 3 [] 10) = 10
    ∧ rollingMedian (rollingAdd 3 (rollingAdd 3 [] 10) 20) = 15
    ∧ rollingMedian (rollingAdd 3 (rollingAdd 3 (rollingAdd 3 [] 10) 20) 30) = 20
    ∧ rollingMedian (rollingAdd 3 (rollingAdd 3 (rollingAdd 3 (rollingAdd 3 [] 10) 20) 30) 40) = 30
    ∧ (rollingAdd defaultWindowSize [] 0).length ≤ defaultWindowSize
    ∧ ∃ evicted, evicted ++ rollingAdd defaultWindowSize [] 0 = [] ++ [0] :=
  C8_rolling_median [] 0 (by decide)

/-- C9 counterexample: the `RollingMedian` window of a `Copier` starts
empty (line 117) and is never reset between `copy_file` calls, so after
a first call adds the sample 100, the median reported while a second
call adds the sample 1 is 101/2 — different from the median the second
call would report from its own samples alone (1).  The smoothed rate
therefore depends on samples of previously copied files, refuting the
claim. -/
theorem C9_counterexample_rate_window_shared_across_calls :
    addSamples defaultWindowSize copierInitWindow [100] = [100]
    ∧ rollingMedian (addSamples defaultWindowSize [100] [1])
        ≠ rollingMedian (addSamples defaultWindowSize copierInitWindow [1]) := by
  constructor
  · decide
  · have h1 : rollingMedian (addSamples defaultWindowSize [100] [1]) = 101 / 2 := by
      norm_num [addSamples, rollingAdd, defaultWindowSize, rollingMedian,
        npMedian, sortQ, insertSorted]
      all_goals decide
    have h2 : rollingMedian (addSamples defaultWindowSize copierInitWindow [1]) = 1 := by
      norm_num [addSamples, copierInitWindow, rollingAdd, defaultWindowSize,
        rollingMedian, npMedian, sortQ, insertSorted]
    rw [h1, h2]
    norm_num

/-- C9 (amended): the single `RollingMedian` created in
`Copier.__init__` is shared by all `copy_file` invocations of that
`Copier`: feeding the samples of two consecutive calls is the same as
feeding their concatenation to one window — the second call starts from
whatever window (up to the last 10 samples of earlier files) the first
call left behind, rather than from a fresh one. -/
theorem C9_amended_samples_accumulate_across_calls (w : List ℚ) (s1 s2 : List ℚ) :
    addSamples defaultWindowSize (addSamples defaultWindowSize w s1) s2
      = addSamples defaultWindowSize w (s1 ++ s2) := by
  simp [addSamples, List.foldl_append]

/-- C10: in dry-run mode `copy_file` is not side-effect-free: whenever
the destination exists and `_find_resume_position` returns a negative
value, the mark-done branch of lines 247-250 runs BEFORE the dry-run
check of line 258, so the destination mtime is set to the source mtime,
the ledger is updated and persisted; and when the resume position is
non-negative the dry-run return suppresses exactly the
directory-creation and byte-transfer steps, leaving content, mtime and
ledger untouched. -/
theorem C10_dry_run_still_marks_done_on_equal (a : CopyArgs) (hdry : a.dryRun = true) :
    (a.dstExists2 = true →
      find_resume_position a.blockSize a.srcContent a.dstContent a.srcContent.length < 0 →
        (copy_file a).setDoneCount = 1
        ∧ (copy_file a).dstMtime = a.srcMtime
        ∧ (copy_file a).cache = dictInsert a.dstPath a.srcMtime a.cache
        ∧ (copy_file a).persisted
            = some (serialize_to_file a.now (dictInsert a.dstPath a.srcMtime a.cache)))
    ∧ (¬ resume_position a.blockSize a.srcContent a.dstExists2 a.dstContent < 0 →
        (copy_file a).dirEnsured = false
        ∧ (copy_file a).bytesTransferred = 0
        ∧ (copy_file a).dstContent = a.dstContent
        ∧ (copy_file a).dstMtime = a.dstMtime
        ∧ (copy_file a).setDoneCount = 0
        ∧ (copy_file a).persisted = none) := by
  constructor
  · intro hex hlt
    have hres : resume_position a.blockSize a.srcContent a.dstExists2 a.dstContent < 0 := by
      simpa [resume_position, hex] using hlt
    simp [copy_file, hres]
  · intro hres
    simp [copy_file, hres, hdry]

/-- C10 witness: a dry-run call on source `[1,1]` with existing
destination `[1]`, for which `_find_resume_position` returns -1 (the
trailing blocks differ, line 173 inverts), still marks done, stamps the
source mtime and persists the ledger. -/
theorem C10_dry_run_witness :
    (copy_file ⟨2048, true, 0, [1,1], 7, "p", true, [1], 3, [], none⟩).setDoneCount = 1
    ∧ (copy_file ⟨2048, true, 0, [1,1], 7, "p", true, [1], 3, [], none⟩).dstMtime = 7
    ∧ (copy_file ⟨2048, true, 0, [1,1], 7, "p", true, [1], 3, [], none⟩).cache
        = dictInsert "p" 7 []
    ∧ (copy_file ⟨2048, true, 0, [1,1], 7, "p", true, [1], 3, [], none⟩).persisted
        = some (serialize_to_file 0 (dictInsert "p" 7 [])) :=
  (C10_dry_run_still_marks_done_on_equal
    ⟨2048, true, 0, [1,1], 7, "p", true, [1], 3, [], none⟩ rfl).1 rfl (by decide)
